import Mathlib

/-!
Verification of the Chunky repository (`chunky_v1.py`): a shallow embedding
of the size probe (`safe_get_file_size`), the chunk packer
(`calculate_chunks`) and the report builder (`generate_report`), followed by
proofs of the specified properties.

The filesystem is modelled as a pure environment `FS`: a directory predicate
plus, for every path, the outcome of each of the probe's three measurement
methods.  Fallible operations are `Option`-valued; machine integers are `Nat`
(Python integers are unbounded, file sizes non-negative).
-/

namespace Chunky

/-- Outcome of the three size-measurement methods that `safe_get_file_size`
tries for one path, each either succeeding with a byte count or failing:
`getsize` is `os.path.getsize` (failure = the caught `OSError`/
`PermissionError`), `win32` is the Windows `win32file` query (failure also
covers `os.name != 'nt'` or an import error, all swallowed by the bare
`except: pass`), `readAll` is opening the file and measuring the bytes read. -/
structure ProbeMethods where
  getsize : Option Nat
  win32 : Option Nat
  readAll : Option Nat
deriving DecidableEq

/-- Embedding of `safe_get_file_size` (chunky_v1.py lines 34-70): try the
three methods in order, first success wins, `(0, false)` when all fail.
Totality of this Lean function is the "never propagates an error" contract. -/
def safe_get_file_size (m : ProbeMethods) : Nat × Bool :=
  match m.getsize with
  | some s => (s, true)
  | none =>
    match m.win32 with
    | some s => (s, true)
    | none =>
      match m.readAll with
      | some s => (s, true)
      | none => (0, false)

/-- The pure filesystem environment a run observes: `os.path.isdir` and, per
path, the per-method probe outcomes. -/
structure FS where
  isdir : String → Bool
  methods : String → ProbeMethods

/-- What `safe_get_file_size(path)` returns under environment `fs`. -/
def FS.probe (fs : FS) (p : String) : Nat × Bool :=
  safe_get_file_size (fs.methods p)

/-- `os.path.join(repo_path, rel_path)` restricted to the case this program
exercises: an absolute root with no trailing separator joined with a relative
path, which inserts one separator. -/
def joinPath (a b : String) : String :=
  a ++ "/" ++ b

/-- The `stats` dictionary built by `calculate_chunks`
(chunky_v1.py lines 87-96). -/
structure Stats where
  total_files : Nat
  processed_files : Nat
  successful_files : Nat
  failed_files : Nat
  large_files : Nat
  total_chunks : Nat
  total_size : Nat
  failed_files_list : List String
deriving DecidableEq

/-- The loop state of `calculate_chunks`: finished chunks, the chunk being
filled, its running size, and the statistics dictionary. -/
structure PackState where
  chunks : List (List String)
  current_chunk : List String
  current_chunk_size : Nat
  stats : Stats
deriving DecidableEq

/-- The initial `stats` dictionary: `total_files` is the input length, every
other counter zero, the failed list empty. -/
def initStats (n : Nat) : Stats :=
  { total_files := n, processed_files := 0, successful_files := 0,
    failed_files := 0, large_files := 0, total_chunks := 0, total_size := 0,
    failed_files_list := [] }

/-- State at the top of the loop in `calculate_chunks`. -/
def initState (n : Nat) : PackState :=
  { chunks := [], current_chunk := [], current_chunk_size := 0,
    stats := initStats n }

/-- One iteration of the loop body of `calculate_chunks`
(chunky_v1.py lines 98-129) on path `rel_path`: count it as processed, skip
directories, record probe failures, count successes, exclude oversized files,
and otherwise place the file greedily (a new chunk starts exactly when
`current_chunk_size + file_size > max_chunk_size`). -/
def processFile (fs : FS) (repo_path : String) (max_chunk_size : Nat)
    (st : PackState) (rel_path : String) : PackState :=
  let abs_path := joinPath repo_path rel_path
  let st1 : PackState :=
    { st with stats :=
        { st.stats with processed_files := st.stats.processed_files + 1 } }
  if fs.isdir abs_path then st1
  else
    let file_size := (fs.probe abs_path).1
    if (fs.probe abs_path).2 = false then
      { st1 with stats :=
          { st1.stats with
            failed_files := st1.stats.failed_files + 1,
            failed_files_list := st1.stats.failed_files_list ++ [rel_path] } }
    else
      let st2 : PackState :=
        { st1 with stats :=
            { st1.stats with
              successful_files := st1.stats.successful_files + 1,
              total_size := st1.stats.total_size + file_size } }
      if max_chunk_size < file_size then
        { st2 with stats :=
            { st2.stats with large_files := st2.stats.large_files + 1 } }
      else if max_chunk_size < st2.current_chunk_size + file_size then
        { st2 with
          chunks := st2.chunks ++ [st2.current_chunk],
          current_chunk := [rel_path],
          current_chunk_size := file_size,
          stats :=
            { st2.stats with total_chunks := st2.stats.total_chunks + 1 } }
      else
        { st2 with
          current_chunk := st2.current_chunk ++ [rel_path],
          current_chunk_size := st2.current_chunk_size + file_size }

/-- Embedding of `calculate_chunks` (chunky_v1.py lines 72-135): fold the
loop body over the input in order, then flush the last chunk if non-empty.
The Python default for `max_chunk_size` is `25 * 1024 * 1024`; here it is an
explicit argument. -/
def calculate_chunks (fs : FS) (untracked_files : List String)
    (repo_path : String) (max_chunk_size : Nat) :
    List (List String) × Stats :=
  let st := List.foldl (processFile fs repo_path max_chunk_size)
    (initState untracked_files.length) untracked_files
  if st.current_chunk.isEmpty then (st.chunks, st.stats)
  else
    (st.chunks ++ [st.current_chunk],
     { st.stats with total_chunks := st.stats.total_chunks + 1 })

/-- The measured size of one file under `fs`, as the packer and the report
both obtain it (`safe_get_file_size(os.path.join(repo_path, p))[0]`). -/
def fileSize (fs : FS) (repo_path : String) (p : String) : Nat :=
  (fs.probe (joinPath repo_path p)).1

/-- Summed measured size of a chunk's files. -/
def chunkSize (fs : FS) (repo_path : String) (c : List String) : Nat :=
  (c.map (fileSize fs repo_path)).sum

/-- The paths `calculate_chunks` places into some chunk: not a directory,
measurable, and not oversized. -/
def kept (fs : FS) (repo_path : String) (max_chunk_size : Nat)
    (p : String) : Bool :=
  !fs.isdir (joinPath repo_path p) && (fs.probe (joinPath repo_path p)).2
    && decide ((fs.probe (joinPath repo_path p)).1 ≤ max_chunk_size)

/-- Python `c * n` for a one-character string: `n` copies of `c`. -/
def repChar (c : Char) (n : Nat) : String :=
  String.mk (List.replicate n c)

/-- The ASCII apostrophe, as it occurs inside the report's fixed strings. -/
def apos : String :=
  String.mk [Char.ofNat 39]

/-- The `:.2f` rendering of `bytes/(1024*1024)` used throughout the report.
The reference formats an IEEE-754 double; modelled as exact rational rounding
of `n/1048576` to hundredths (half away from zero).  Every claim settled
against the report concerns determinism, which only needs this to be a fixed
function of the byte count. -/
def fmtMB (n : Nat) : String :=
  let h := (n * 100 + 524288) / 1048576
  toString (h / 100) ++ "." ++ (if h % 100 < 10 then "0" else "")
    ++ toString (h % 100)

/-- The per-chunk report lines (chunky_v1.py lines 156-162), chunks numbered
from `i` (the reference enumerates from 1): a header with the file count and
the chunk's summed size re-measured by `safe_get_file_size`, then one line
per file with its re-measured size. -/
def chunkLines (fs : FS) (repo_path : String) :
    Nat → List (List String) → List String
  | _, [] => []
  | i, c :: rest =>
    ("\nChunk #" ++ toString i ++ " (" ++ toString c.length ++ " files, "
        ++ fmtMB (chunkSize fs repo_path c) ++ "MB):")
      :: (c.map (fun f =>
            "  - " ++ f ++ " (" ++ fmtMB (fileSize fs repo_path f) ++ "MB)")
          ++ chunkLines fs repo_path (i + 1) rest)

/-- Embedding of `generate_report` (chunky_v1.py lines 137-175).  The Python
function joins the report lines with newlines and hands the text to
`logging.info`; the embedding returns that text.  `now` is the
`datetime.now().strftime('%Y-%m-%d %H:%M:%S')` clock reading taken during
the call, an input of the model. -/
def generate_report (fs : FS) (now : String) (chunks : List (List String))
    (stats : Stats) (repo_path : String) : String :=
  let header : List String :=
    [repChar '=' 80,
     "Git Repository Chunking Report",
     "Repository: " ++ repo_path,
     "Generated: " ++ now,
     repChar '-' 80,
     "Summary Statistics:",
     "  Total files processed: " ++ toString stats.total_files,
     "  Successfully processed files: " ++ toString stats.successful_files,
     "  Files that couldn" ++ apos ++ "t be measured: "
       ++ toString stats.failed_files,
     "  Files too large (>25MB): " ++ toString stats.large_files,
     "  Total size of processable files: " ++ fmtMB stats.total_size ++ "MB",
     "  Total chunks created: " ++ toString stats.total_chunks,
     repChar '-' 80]
  let report := header ++ ["\nChunk Details:"] ++ chunkLines fs repo_path 1 chunks
  let report := report ++
    (if 0 < stats.failed_files then
      [repChar '-' 80, "\nFiles that couldn" ++ apos ++ "t be processed:"]
        ++ stats.failed_files_list.map (fun f => "  - " ++ f)
    else [])
  let report := report ++ [repChar '=' 80]
  String.intercalate "\n" report

/-! ### Concrete environments used to instantiate the theorems -/

/-- File sizes of the concrete scenarios: A-E are the basic greedy-packing
scenario (4, 4, 4, 11, 2), F-H the exact-fit scenario (6, 4, 1). -/
def testSize (p : String) : Nat :=
  if p = "r/A" then 4 else if p = "r/B" then 4 else if p = "r/C" then 4
  else if p = "r/D" then 11 else if p = "r/E" then 2
  else if p = "r/F" then 6 else if p = "r/G" then 4 else if p = "r/H" then 1
  else 0

/-- Environment with no directories where `os.path.getsize` succeeds
everywhere with the scenario sizes. -/
def testFS : FS :=
  { isdir := fun _ => false,
    methods := fun p =>
      { getsize := some (testSize p), win32 := none, readAll := none } }

/-- Environment with the same measured sizes as `testFS` but obtained through
the read-the-file fallback instead of `os.path.getsize`. -/
def testFS2 : FS :=
  { isdir := fun _ => false,
    methods := fun p =>
      { getsize := none, win32 := none, readAll := some (testSize p) } }

/-- Environment in which the path `Dir` resolves to a directory. -/
def dirFS : FS :=
  { isdir := fun p => p == "r/Dir",
    methods := fun p =>
      { getsize := some (testSize p), win32 := none, readAll := none } }

/-- Adds `a` to `total_files` and `b` to `processed_files`, leaving every
other component of the loop state unchanged: the relation between two runs
whose inputs differ by one skipped directory entry. -/
def statBump (a b : Nat) (st : PackState) : PackState :=
  { st with stats :=
      { st.stats with
        total_files := st.stats.total_files + a,
        processed_files := st.stats.processed_files + b } }

/-- Loop invariant of `calculate_chunks` after processing the prefix
`processed` of the input: every finished chunk is non-empty and within the
ceiling, the chunk counter matches, the running size is the current chunk's
summed size and within the ceiling, the coverage equation holds, and the
finished chunks plus the current chunk hold exactly the kept paths in input
order. -/
structure PackInv (fs : FS) (repo_path : String) (max_chunk_size : Nat)
    (st : PackState) (processed : List String) : Prop where
  chunks_ne : ∀ c ∈ st.chunks, c ≠ []
  chunks_count : st.stats.total_chunks = st.chunks.length
  cur_size_eq : st.current_chunk_size = chunkSize fs repo_path st.current_chunk
  cur_size_le : st.current_chunk_size ≤ max_chunk_size
  chunks_le : ∀ c ∈ st.chunks, chunkSize fs repo_path c ≤ max_chunk_size
  coverage : st.stats.successful_files =
    st.stats.large_files + (st.chunks.map List.length).sum
      + st.current_chunk.length
  order_eq : st.chunks.flatten ++ st.current_chunk =
    processed.filter (kept fs repo_path max_chunk_size)

theorem processFile_dir (fs : FS) (repo_path : String) (maxc : Nat)
    (st : PackState) (p : String)
    (hdir : fs.isdir (joinPath repo_path p) = true) :
    processFile fs repo_path maxc st p =
      { st with stats :=
          { st.stats with
            processed_files := st.stats.processed_files + 1 } } := by
  simp [processFile, hdir]

theorem processFile_failed (fs : FS) (repo_path : String) (maxc : Nat)
    (st : PackState) (p : String)
    (hdir : fs.isdir (joinPath repo_path p) = false)
    (hfail : (fs.probe (joinPath repo_path p)).2 = false) :
    processFile fs repo_path maxc st p =
      { st with stats :=
          { st.stats with
            processed_files := st.stats.processed_files + 1,
            failed_files := st.stats.failed_files + 1,
            failed_files_list := st.stats.failed_files_list ++ [p] } } := by
  simp [processFile, hdir, hfail]

theorem processFile_large (fs : FS) (repo_path : String) (maxc : Nat)
    (st : PackState) (p : String)
    (hdir : fs.isdir (joinPath repo_path p) = false)
    (hok : (fs.probe (joinPath repo_path p)).2 = true)
    (hlarge : maxc < (fs.probe (joinPath repo_path p)).1) :
    processFile fs repo_path maxc st p =
      { st with stats :=
          { st.stats with
            processed_files := st.stats.processed_files + 1,
            successful_files := st.stats.successful_files + 1,
            total_size :=
              st.stats.total_size + (fs.probe (joinPath repo_path p)).1,
            large_files := st.stats.large_files + 1 } } := by
  simp [processFile, hdir, hok, hlarge]

theorem processFile_newchunk (fs : FS) (repo_path : String) (maxc : Nat)
    (st : PackState) (p : String)
    (hdir : fs.isdir (joinPath repo_path p) = false)
    (hok : (fs.probe (joinPath repo_path p)).2 = true)
    (hsmall : (fs.probe (joinPath repo_path p)).1 ≤ maxc)
    (hover : maxc < st.current_chunk_size + (fs.probe (joinPath repo_path p)).1) :
    processFile fs repo_path maxc st p =
      { chunks := st.chunks ++ [st.current_chunk],
        current_chunk := [p],
        current_chunk_size := (fs.probe (joinPath repo_path p)).1,
        stats :=
          { st.stats with
            processed_files := st.stats.processed_files + 1,
            successful_files := st.stats.successful_files + 1,
            total_size :=
              st.stats.total_size + (fs.probe (joinPath repo_path p)).1,
            total_chunks := st.stats.total_chunks + 1 } } := by
  simp [processFile, hdir, hok, Nat.not_lt.mpr hsmall, hover]

theorem processFile_fits (fs : FS) (repo_path : String) (maxc : Nat)
    (st : PackState) (p : String)
    (hdir : fs.isdir (joinPath repo_path p) = false)
    (hok : (fs.probe (joinPath repo_path p)).2 = true)
    (hsmall : (fs.probe (joinPath repo_path p)).1 ≤ maxc)
    (hfits : st.current_chunk_size + (fs.probe (joinPath repo_path p)).1 ≤ maxc) :
    processFile fs repo_path maxc st p =
      { st with
        current_chunk := st.current_chunk ++ [p],
        current_chunk_size :=
          st.current_chunk_size + (fs.probe (joinPath repo_path p)).1,
        stats :=
          { st.stats with
            processed_files := st.stats.processed_files + 1,
            successful_files := st.stats.successful_files + 1,
            total_size :=
              st.stats.total_size + (fs.probe (joinPath repo_path p)).1 } } := by
  simp [processFile, hdir, hok, Nat.not_lt.mpr hsmall, Nat.not_lt.mpr hfits]

theorem packInv_step (fs : FS) (repo_path : String) (maxc : Nat)
    (st : PackState) (processed : List String) (p : String)
    (h : PackInv fs repo_path maxc st processed) :
    PackInv fs repo_path maxc (processFile fs repo_path maxc st p)
      (processed ++ [p]) := by
  obtain ⟨h1, h2, h3, h4, h5, h6, h7⟩ := h
  by_cases hdir : fs.isdir (joinPath repo_path p) = true
  · rw [processFile_dir fs repo_path maxc st p hdir]
    have hk : kept fs repo_path maxc p = false := by simp [kept, hdir]
    exact ⟨h1, h2, h3, h4, h5, h6, by
      rw [List.filter_append]; simp [hk, h7]⟩
  · have hdirf : fs.isdir (joinPath repo_path p) = false := by simpa using hdir
    by_cases hok : (fs.probe (joinPath repo_path p)).2 = true
    · by_cases hlarge : maxc < (fs.probe (joinPath repo_path p)).1
      · rw [processFile_large fs repo_path maxc st p hdirf hok hlarge]
        have hk : kept fs repo_path maxc p = false := by
          simp [kept, Nat.not_le.mpr hlarge]
        refine ⟨h1, h2, h3, h4, h5, by simp; omega, ?_⟩
        rw [List.filter_append]; simp [hk, h7]
      · have hsmall : (fs.probe (joinPath repo_path p)).1 ≤ maxc :=
          Nat.not_lt.mp hlarge
        have hk : kept fs repo_path maxc p = true := by
          simp [kept, hdirf, hok, hsmall]
        by_cases hover :
            maxc < st.current_chunk_size + (fs.probe (joinPath repo_path p)).1
        · rw [processFile_newchunk fs repo_path maxc st p hdirf hok hsmall hover]
          have hcur : st.current_chunk ≠ [] := by
            intro he
            rw [he] at h3
            simp [chunkSize] at h3
            omega
          refine ⟨?_, ?_, ?_, hsmall, ?_, ?_, ?_⟩
          · intro c hc
            rcases List.mem_append.mp hc with hc | hc
            · exact h1 c hc
            · simp at hc; subst hc; exact hcur
          · simp [h2]
          · simp [chunkSize, fileSize]
          · intro c hc
            rcases List.mem_append.mp hc with hc | hc
            · exact h5 c hc
            · simp at hc; subst hc; rw [← h3]; exact h4
          · simp; omega
          · rw [List.filter_append]
            simp only [List.flatten_append, List.flatten_cons, List.flatten_nil,
              List.append_nil, List.append_assoc]
            simp [hk, ← h7]
        · rw [processFile_fits fs repo_path maxc st p hdirf hok hsmall
            (Nat.not_lt.mp hover)]
          refine ⟨h1, h2, ?_, Nat.not_lt.mp hover, h5, by simp; omega, ?_⟩
          · simp [chunkSize, fileSize, List.sum_append]; exact h3
          · rw [List.filter_append]
            simp [hk, ← h7]
    · have hfail : (fs.probe (joinPath repo_path p)).2 = false := by
        simpa using hok
      rw [processFile_failed fs repo_path maxc st p hdirf hfail]
      have hk : kept fs repo_path maxc p = false := by simp [kept, hfail]
      exact ⟨h1, h2, h3, h4, h5, h6, by
        rw [List.filter_append]; simp [hk, h7]⟩

theorem packInv_foldl (fs : FS) (repo_path : String) (maxc : Nat)
    (l : List String) : ∀ (st : PackState) (processed : List String),
    PackInv fs repo_path maxc st processed →
    PackInv fs repo_path maxc
      (List.foldl (processFile fs repo_path maxc) st l) (processed ++ l) := by
  induction l with
  | nil => intro st processed h; simpa using h
  | cons p l ih =>
    intro st processed h
    have h2 := ih (processFile fs repo_path maxc st p) (processed ++ [p])
      (packInv_step fs repo_path maxc st processed p h)
    simpa using h2

theorem packInv_init (fs : FS) (repo_path : String) (maxc n : Nat) :
    PackInv fs repo_path maxc (initState n) [] :=
  ⟨by simp [initState], by simp [initState, initStats],
   by simp [initState, chunkSize], by simp [initState],
   by simp [initState], by simp [initState, initStats],
   by simp [initState]⟩

/-- All structural facts about one run of `calculate_chunks`, obtained by
flushing the loop invariant: chunks non-empty, the chunk count, the ceiling,
the coverage equation, and the order-preservation/filter equation. -/
theorem calculate_chunks_inv (fs : FS) (files : List String)
    (repo_path : String) (maxc : Nat) :
    (∀ c ∈ (calculate_chunks fs files repo_path maxc).1, c ≠ []) ∧
    (calculate_chunks fs files repo_path maxc).2.total_chunks =
      (calculate_chunks fs files repo_path maxc).1.length ∧
    (∀ c ∈ (calculate_chunks fs files repo_path maxc).1,
      chunkSize fs repo_path c ≤ maxc) ∧
    (calculate_chunks fs files repo_path maxc).2.successful_files =
      (calculate_chunks fs files repo_path maxc).2.large_files +
        ((calculate_chunks fs files repo_path maxc).1.map List.length).sum ∧
    (calculate_chunks fs files repo_path maxc).1.flatten =
      files.filter (kept fs repo_path maxc) := by
  have h := packInv_foldl fs repo_path maxc files (initState files.length) []
    (packInv_init fs repo_path maxc files.length)
  set st := List.foldl (processFile fs repo_path maxc)
    (initState files.length) files with hst
  obtain ⟨h1, h2, h3, h4, h5, h6, h7⟩ := h
  simp only [List.nil_append] at h7
  have hcc : calculate_chunks fs files repo_path maxc =
      if st.current_chunk.isEmpty then (st.chunks, st.stats)
      else (st.chunks ++ [st.current_chunk],
        { st.stats with total_chunks := st.stats.total_chunks + 1 }) := rfl
  cases hcur : st.current_chunk with
  | nil =>
    rw [hcc, hcur]
    simp only [List.isEmpty_nil, if_true]
    rw [hcur] at h6 h7
    refine ⟨h1, h2, h5, ?_, ?_⟩
    · simpa using h6
    · simpa using h7
  | cons a tl =>
    rw [hcc, hcur]
    simp only [List.isEmpty_cons, if_false]
    rw [hcur] at h3 h6 h7
    refine ⟨?_, ?_, ?_, ?_, ?_⟩
    · intro c hc
      rcases List.mem_append.mp hc with hc | hc
      · exact h1 c hc
      · simp at hc; subst hc; simp
    · simp [h2]
    · intro c hc
      rcases List.mem_append.mp hc with hc | hc
      · exact h5 c hc
      · simp at hc; subst hc; rw [← h3]; exact h4
    · show st.stats.successful_files = st.stats.large_files +
        ((st.chunks ++ [a :: tl]).map List.length).sum
      simp only [List.map_append, List.map_cons, List.map_nil,
        List.sum_append, List.sum_cons, List.sum_nil]
      omega
    · show (st.chunks ++ [a :: tl]).flatten =
        files.filter (kept fs repo_path maxc)
      simp only [List.flatten_append, List.flatten_cons, List.flatten_nil,
        List.append_nil]
      exact h7

theorem processFile_statBump (fs : FS) (repo_path : String) (maxc a b : Nat)
    (st : PackState) (p : String) :
    processFile fs repo_path maxc (statBump a b st) p
      = statBump a b (processFile fs repo_path maxc st p) := by
  rcases st with ⟨cks, cur, csz, sts⟩
  rcases sts with ⟨tf, pf, sf, ff, lf, tc, ts, ffl⟩
  simp only [processFile, statBump]
  split_ifs <;> simp <;> omega

theorem foldl_statBump (fs : FS) (repo_path : String) (maxc a b : Nat)
    (l : List String) : ∀ st : PackState,
    List.foldl (processFile fs repo_path maxc) (statBump a b st) l
      = statBump a b (List.foldl (processFile fs repo_path maxc) st l) := by
  induction l with
  | nil => intro st; rfl
  | cons p l ih =>
    intro st
    simp only [List.foldl_cons, processFile_statBump]
    exact ih _

theorem chunkLines_congr (fs fs' : FS) (repo_path : String) :
    ∀ (i : Nat) (cs : List (List String)),
    (∀ f ∈ cs.flatten, fileSize fs repo_path f = fileSize fs' repo_path f) →
    chunkLines fs repo_path i cs = chunkLines fs' repo_path i cs := by
  intro i cs
  induction cs generalizing i with
  | nil => intro _; rfl
  | cons c rest ih =>
    intro h
    have hc : ∀ f ∈ c, fileSize fs repo_path f = fileSize fs' repo_path f := by
      intro f hf
      apply h
      rw [List.flatten_cons]
      exact List.mem_append.mpr (Or.inl hf)
    have hrest : ∀ f ∈ rest.flatten,
        fileSize fs repo_path f = fileSize fs' repo_path f := by
      intro f hf
      apply h
      rw [List.flatten_cons]
      exact List.mem_append.mpr (Or.inr hf)
    simp only [chunkLines]
    rw [show chunkSize fs repo_path c = chunkSize fs' repo_path c from
      congrArg List.sum (List.map_congr_left hc)]
    rw [List.map_congr_left fun f hf =>
      show "  - " ++ f ++ " (" ++ fmtMB (fileSize fs repo_path f) ++ "MB)"
          = "  - " ++ f ++ " (" ++ fmtMB (fileSize fs' repo_path f) ++ "MB)" from
        by rw [hc f hf]]
    rw [ih (i + 1) hrest]

/-- C8: For every path (modelled by the outcomes of the three measurement
methods at that path), the size probe always returns a `(size, ok)` pair —
totality of `safe_get_file_size` — trying its fallback methods in order with
the first success winning, and returns `(0, false)` when every method
fails. -/
theorem safe_get_file_size_spec (m : ProbeMethods) :
    (∀ s, m.getsize = some s → safe_get_file_size m = (s, true)) ∧
    (∀ s, m.getsize = none → m.win32 = some s →
      safe_get_file_size m = (s, true)) ∧
    (∀ s, m.getsize = none → m.win32 = none → m.readAll = some s →
      safe_get_file_size m = (s, true)) ∧
    (m.getsize = none → m.win32 = none → m.readAll = none →
      safe_get_file_size m = (0, false)) := by
  refine ⟨?_, ?_, ?_, ?_⟩
  · intro s h; simp [safe_get_file_size, h]
  · intro s h1 h2; simp [safe_get_file_size, h1, h2]
  · intro s h1 h2 h3; simp [safe_get_file_size, h1, h2, h3]
  · intro h1 h2 h3; simp [safe_get_file_size, h1, h2, h3]

/-- Witness for C8: a probe whose three methods all fail returns
`(0, false)`. -/
theorem safe_get_file_size_spec_witness :
    safe_get_file_size { getsize := none, win32 := none, readAll := none }
      = (0, false) :=
  (safe_get_file_size_spec
    { getsize := none, win32 := none, readAll := none }).2.2.2 rfl rfl rfl

/-- C4: For every environment, input list, root directory and ceiling, the
stats returned by `calculate_chunks` satisfy
`successful_files = large_files + Σ(len(chunk))` over the returned chunks. -/
theorem pack_coverage (fs : FS) (files : List String) (repo_path : String)
    (maxc : Nat) :
    (calculate_chunks fs files repo_path maxc).2.successful_files =
      (calculate_chunks fs files repo_path maxc).2.large_files +
        ((calculate_chunks fs files repo_path maxc).1.map List.length).sum :=
  (calculate_chunks_inv fs files repo_path maxc).2.2.2.1

/-- C5: For every environment, input list, root directory and ceiling, every
chunk returned by `calculate_chunks` has a summed measured size of at most
the ceiling. -/
theorem pack_ceiling (fs : FS) (files : List String) (repo_path : String)
    (maxc : Nat) :
    ∀ c ∈ (calculate_chunks fs files repo_path maxc).1,
      chunkSize fs repo_path c ≤ maxc :=
  (calculate_chunks_inv fs files repo_path maxc).2.2.1

/-- Witness for C5: in the concrete scenario the first returned chunk is
`[A, B]` and its summed size is within the ceiling 10. -/
theorem pack_ceiling_witness :
    chunkSize testFS "r" ["A", "B"] ≤ 10 :=
  pack_ceiling testFS ["A", "B", "C", "D", "E"] "r" 10 ["A", "B"] (by decide)

/-- C6: For every environment, input list, root directory and ceiling, the
concatenation of the returned chunks equals the input list filtered to the
kept paths (directories, unmeasurable and oversized files removed, order
unchanged); in particular a path not kept — e.g. classified oversized or
unmeasurable — appears in no chunk. -/
theorem pack_order_preservation (fs : FS) (files : List String)
    (repo_path : String) (maxc : Nat) :
    (calculate_chunks fs files repo_path maxc).1.flatten =
      files.filter (kept fs repo_path maxc) ∧
    ∀ f : String, kept fs repo_path maxc f = false →
      f ∉ (calculate_chunks fs files repo_path maxc).1.flatten := by
  have h := (calculate_chunks_inv fs files repo_path maxc).2.2.2.2
  refine ⟨h, ?_⟩
  intro f hf hmem
  rw [h] at hmem
  have := List.of_mem_filter hmem
  rw [hf] at this
  exact Bool.false_ne_true this

/-- Witness for C6: in the concrete scenario the oversized file `D`
(size 11 > ceiling 10) is not kept and appears in no chunk. -/
theorem pack_order_preservation_witness :
    "D" ∉ (calculate_chunks testFS ["A", "B", "C", "D", "E"] "r" 10).1.flatten :=
  (pack_order_preservation testFS ["A", "B", "C", "D", "E"] "r" 10).2
    "D" (by decide)

/-- C9: For every environment, input list, root directory and ceiling, every
chunk returned by `calculate_chunks` is non-empty. -/
theorem pack_chunks_nonempty (fs : FS) (files : List String)
    (repo_path : String) (maxc : Nat) :
    ∀ c ∈ (calculate_chunks fs files repo_path maxc).1, c ≠ [] :=
  (calculate_chunks_inv fs files repo_path maxc).1

/-- Witness for C9: the first chunk of the concrete scenario is non-empty. -/
theorem pack_chunks_nonempty_witness :
    (["A", "B"] : List String) ≠ [] :=
  pack_chunks_nonempty testFS ["A", "B", "C", "D", "E"] "r" 10
    ["A", "B"] (by decide)

/-- C10: For every environment, input list, root directory and ceiling, the
`total_chunks` counter returned by `calculate_chunks` equals the length of
the returned chunk list. -/
theorem pack_total_chunks_eq_length (fs : FS) (files : List String)
    (repo_path : String) (maxc : Nat) :
    (calculate_chunks fs files repo_path maxc).2.total_chunks =
      (calculate_chunks fs files repo_path maxc).1.length :=
  (calculate_chunks_inv fs files repo_path maxc).2.1

/-- C1 counterexample: on the Scenario-B input (sizes A=4, B=4, C=4, D=11,
E=2, ceiling 10) the code yields `successful_files = 5`, not 4 as claimed:
`successful_files` is incremented before the oversized check, so the
measurable oversized file D is counted as successful. -/
theorem scenarioB_successful_files_ne_four :
    (calculate_chunks testFS ["A", "B", "C", "D", "E"] "r" 10).2.successful_files
        = 5 ∧
    (calculate_chunks testFS ["A", "B", "C", "D", "E"] "r" 10).2.successful_files
        ≠ 4 := by
  decide

/-- C1 (amended): For input paths with measured sizes A=4, B=4, C=4, D=11,
E=2 (in that order, none a directory, all measurements succeeding) and
ceiling 10, `calculate_chunks` returns exactly the chunks `[[A,B],[C,E]]`,
with `total_chunks = 2`, `large_files = 1`, and `successful_files = 5`. -/
theorem scenarioB_pack :
    (calculate_chunks testFS ["A", "B", "C", "D", "E"] "r" 10).1
        = [["A", "B"], ["C", "E"]] ∧
    (calculate_chunks testFS ["A", "B", "C", "D", "E"] "r" 10).2.total_chunks
        = 2 ∧
    (calculate_chunks testFS ["A", "B", "C", "D", "E"] "r" 10).2.large_files
        = 1 ∧
    (calculate_chunks testFS ["A", "B", "C", "D", "E"] "r" 10).2.successful_files
        = 5 := by
  decide

/-- C2 counterexample: a single input path resolving to a directory joins no
chunk and leaves `successful_files` and `failed_files` at 0, but
`processed_files` becomes 1, not 0: the code increments it before the
directory check. -/
theorem dir_counted_as_processed :
    (calculate_chunks dirFS ["Dir"] "r" 10).1 = [] ∧
    (calculate_chunks dirFS ["Dir"] "r" 10).2.successful_files = 0 ∧
    (calculate_chunks dirFS ["Dir"] "r" 10).2.failed_files = 0 ∧
    (calculate_chunks dirFS ["Dir"] "r" 10).2.processed_files ≠ 0 ∧
    (calculate_chunks dirFS ["Dir"] "r" 10).2.processed_files = 1 := by
  decide

/-- Folding the definition of `calculate_chunks` through a known value of
the loop state: the result is the flushed final state. -/
theorem calculate_chunks_eq_flush (fs : FS) (files : List String)
    (repo_path : String) (maxc : Nat) (st : PackState)
    (h : List.foldl (processFile fs repo_path maxc)
      (initState files.length) files = st) :
    calculate_chunks fs files repo_path maxc =
      if st.current_chunk.isEmpty then (st.chunks, st.stats)
      else (st.chunks ++ [st.current_chunk],
        { st.stats with total_chunks := st.stats.total_chunks + 1 }) := by
  simp only [calculate_chunks]
  rw [h]

/-- C2 (amended): For every input path that resolves to a directory,
`calculate_chunks` skips it except for counting it: relative to the same
run without that path, it appears in no chunk (the chunk lists are
identical) and every statistic is unchanged except `total_files` and
`processed_files`, which each grow by one. -/
theorem dir_skip (fs : FS) (files1 files2 : List String)
    (repo_path : String) (maxc : Nat) (d : String)
    (hdir : fs.isdir (joinPath repo_path d) = true) :
    (calculate_chunks fs (files1 ++ d :: files2) repo_path maxc).1 =
      (calculate_chunks fs (files1 ++ files2) repo_path maxc).1 ∧
    (calculate_chunks fs (files1 ++ d :: files2) repo_path maxc).2 =
      { (calculate_chunks fs (files1 ++ files2) repo_path maxc).2 with
        total_files :=
          (calculate_chunks fs (files1 ++ files2) repo_path maxc).2.total_files
            + 1,
        processed_files :=
          (calculate_chunks fs
            (files1 ++ files2) repo_path maxc).2.processed_files + 1 } := by
  have hcomb : ∀ st : PackState,
      ({ statBump 1 0 st with stats := { (statBump 1 0 st).stats with
          processed_files :=
            (statBump 1 0 st).stats.processed_files + 1 } } : PackState)
        = statBump 1 1 st := by
    intro st
    simp [statBump]
  have key : List.foldl (processFile fs repo_path maxc)
      (initState (files1 ++ d :: files2).length) (files1 ++ d :: files2)
      = statBump 1 1 (List.foldl (processFile fs repo_path maxc)
          (initState (files1 ++ files2).length) (files1 ++ files2)) := by
    have hinit : initState (files1 ++ d :: files2).length
        = statBump 1 0 (initState (files1 ++ files2).length) := by
      simp [initState, initStats, statBump]
      omega
    conv_rhs => rw [List.foldl_append]
    rw [hinit, List.foldl_append, List.foldl_cons, foldl_statBump,
      processFile_dir fs repo_path maxc _ d hdir, hcomb, foldl_statBump]
  set S := List.foldl (processFile fs repo_path maxc)
    (initState (files1 ++ files2).length) (files1 ++ files2) with hS
  have hL := calculate_chunks_eq_flush fs (files1 ++ d :: files2) repo_path
    maxc _ key
  have hR := calculate_chunks_eq_flush fs (files1 ++ files2) repo_path
    maxc S hS.symm
  rw [hL, hR]
  cases hcur : S.current_chunk with
  | nil => simp [statBump, hcur]
  | cons a tl => simp [statBump, hcur]

/-- Witness for C2 (amended): inserting the directory entry `Dir` between
`A` and `B` leaves the chunks unchanged and bumps only the two counters. -/
theorem dir_skip_witness :
    (calculate_chunks dirFS (["A"] ++ "Dir" :: ["B"]) "r" 10).1 =
      (calculate_chunks dirFS (["A"] ++ ["B"]) "r" 10).1 ∧
    (calculate_chunks dirFS (["A"] ++ "Dir" :: ["B"]) "r" 10).2 =
      { (calculate_chunks dirFS (["A"] ++ ["B"]) "r" 10).2 with
        total_files :=
          (calculate_chunks dirFS (["A"] ++ ["B"]) "r" 10).2.total_files + 1,
        processed_files :=
          (calculate_chunks dirFS
            (["A"] ++ ["B"]) "r" 10).2.processed_files + 1 } :=
  dir_skip dirFS ["A"] ["B"] "r" 10 "Dir" (by decide)

set_option maxRecDepth 40000 in
/-- C3 counterexample: two invocations of `generate_report` with identical
chunks, stats, root directory and identical per-file measured sizes but
different clock readings produce different report text — the report embeds
`datetime.now()` in its `Generated:` line, so the text is not a function of
those four inputs alone. -/
theorem report_depends_on_clock :
    generate_report testFS "2025-01-01 00:00:00" [] (initStats 0) "r"
      ≠ generate_report testFS "2025-01-01 00:00:01" [] (initStats 0) "r" := by
  decide

/-- C3 (amended): `generate_report` is a deterministic function of its
inputs including the generation-time clock reading: two invocations with
identical chunks, stats, rootDir, identical per-file measured sizes and an
identical clock reading produce identical report text (the text the
reference hands to the logger; the model has no other effect). -/
theorem generate_report_deterministic (fs fs' : FS) (now : String)
    (chunks : List (List String)) (stats : Stats) (repo_path : String)
    (h : ∀ f ∈ chunks.flatten,
      fileSize fs repo_path f = fileSize fs' repo_path f) :
    generate_report fs now chunks stats repo_path
      = generate_report fs' now chunks stats repo_path := by
  simp only [generate_report]
  rw [chunkLines_congr fs fs' repo_path 1 chunks h]

/-- Witness for C3 (amended): two environments that measure the same sizes
through different fallback methods (direct `getsize` versus reading the
file) produce the same report for the same chunks, stats, root and clock
reading. -/
theorem generate_report_deterministic_witness :
    generate_report testFS "2025-01-01 00:00:00" [["A", "B"]]
        (initStats 2) "r"
      = generate_report testFS2 "2025-01-01 00:00:00" [["A", "B"]]
        (initStats 2) "r" :=
  generate_report_deterministic testFS testFS2 "2025-01-01 00:00:00"
    [["A", "B"]] (initStats 2) "r" (by decide)

/-- C7: Processing a measurable, non-oversized file keeps it in the current
chunk whenever `currentSize + size ≤ maxChunkSize` (in particular when the
running total lands exactly on the ceiling); a new chunk is started only
when `currentSize + size` is strictly greater than the ceiling, and then
the new chunk contains just that file with `currentSize = size`.
Concretely, with ceiling 10 and sizes 6, 4, 1 the chunks are
`[[6, 4], [1]]` (here the files F, G, H of those sizes). -/
theorem pack_exact_fit_boundary :
    (∀ (fs : FS) (repo_path : String) (maxc : Nat) (st : PackState)
        (p : String),
      fs.isdir (joinPath repo_path p) = false →
      (fs.probe (joinPath repo_path p)).2 = true →
      (fs.probe (joinPath repo_path p)).1 ≤ maxc →
      ((st.current_chunk_size + (fs.probe (joinPath repo_path p)).1 ≤ maxc →
        (processFile fs repo_path maxc st p).current_chunk
            = st.current_chunk ++ [p] ∧
        (processFile fs repo_path maxc st p).chunks = st.chunks) ∧
       (maxc < st.current_chunk_size + (fs.probe (joinPath repo_path p)).1 →
        (processFile fs repo_path maxc st p).chunks
            = st.chunks ++ [st.current_chunk] ∧
        (processFile fs repo_path maxc st p).current_chunk = [p] ∧
        (processFile fs repo_path maxc st p).current_chunk_size
            = (fs.probe (joinPath repo_path p)).1))) ∧
    (calculate_chunks testFS ["F", "G", "H"] "r" 10).1
        = [["F", "G"], ["H"]] := by
  refine ⟨?_, by decide⟩
  intro fs repo_path maxc st p hdir hok hsmall
  constructor
  · intro hfits
    rw [processFile_fits fs repo_path maxc st p hdir hok hsmall hfits]
    exact ⟨rfl, rfl⟩
  · intro hover
    rw [processFile_newchunk fs repo_path maxc st p hdir hok hsmall hover]
    exact ⟨rfl, rfl, rfl⟩

/-- Witness for C7: adding the size-4 file G to a chunk holding the size-6
file F under ceiling 10 lands exactly on the ceiling and stays in the
current chunk; the subsequent size-1 file H would overflow and starts a new
chunk containing just H. -/
theorem pack_exact_fit_boundary_witness :
    ((processFile testFS "r" 10
        { chunks := [], current_chunk := ["F"], current_chunk_size := 6,
          stats := initStats 3 } "G").current_chunk = ["F"] ++ ["G"] ∧
      (processFile testFS "r" 10
        { chunks := [], current_chunk := ["F"], current_chunk_size := 6,
          stats := initStats 3 } "G").chunks = []) ∧
    (processFile testFS "r" 10
        { chunks := [], current_chunk := ["F", "G"], current_chunk_size := 10,
          stats := initStats 3 } "H").chunks = [] ++ [["F", "G"]] :=
  ⟨(pack_exact_fit_boundary.1 testFS "r" 10
      { chunks := [], current_chunk := ["F"], current_chunk_size := 6,
        stats := initStats 3 } "G"
      (by decide) (by decide) (by decide)).1 (by decide),
   ((pack_exact_fit_boundary.1 testFS "r" 10
      { chunks := [], current_chunk := ["F", "G"], current_chunk_size := 10,
        stats := initStats 3 } "H"
      (by decide) (by decide) (by decide)).2 (by decide)).1⟩

end Chunky
